import Mathlib

/-!
Verification of the pod-classification and counter-aggregation logic of
`backend/app.py` (a Flask service reporting blue-green rollout state).

The Python source is shallowly embedded: the external collaborators
(Kubernetes API, Redis) are modelled as explicit inputs, and the request
handlers `get_pods` and `get_stats` become pure Lean functions of those
inputs.  Python `None` becomes `Option`, Python exceptions become
`Except String`, Python dicts become association lists with last-write-wins
insertion, and Python truthiness of optional strings is modelled explicitly
(`None` and the empty string are falsy).
-/

set_option autoImplicit false

deriving instance DecidableEq for Except

namespace BlueGreen

/-- Python truthiness of an optional string: `None` and `""` are falsy. -/
def truthyStr : Option String → Bool
  | none => false
  | some s => !(s == "")

/-- Lookup in a label mapping (Python `dict`, modelled as an association
list): `labels.get(k)` — first matching key wins. -/
def labelsLookup (ls : List (String × String)) (k : String) : Option String :=
  match ls.find? (fun kv => kv.1 == k) with
  | some kv => some kv.2
  | none => none

/-- Python `labels.get(k, d)`: lookup with a default. -/
def labelsGetD (ls : List (String × String)) (k d : String) : String :=
  (labelsLookup ls k).getD d

/-- The scheme-B role assignment, from `app.py` lines 188-195:

    version = 'unknown'
    if active_hash and pod_hash == active_hash:
        version = 'active'
    elif preview_hash and pod_hash == preview_hash:
        version = 'preview'
    elif active_hash is None and preview_hash is None:
        version = 'unknown'
-/
def classifyVersion (active_hash preview_hash : Option String) (pod_hash : String) :
    String :=
  if truthyStr active_hash && (active_hash == some pod_hash) then "active"
  else if truthyStr preview_hash && (preview_hash == some pod_hash) then "preview"
  else if (active_hash == none) && (preview_hash == none) then "unknown"
  else "unknown"

/-- `pod.status.container_statuses[i]`: the readiness flag and restart count
of one container. -/
structure ContainerStatus where
  ready : Bool
  restart_count : Nat
deriving Repr, DecidableEq

/-- `pod.metadata`: name and labels. -/
structure PodMeta where
  name : String
  labels : List (String × String)
deriving Repr, DecidableEq

/-- `pod.status`: phase, per-container statuses (a Python list that may be
`None`), and the pod IP. -/
structure PodStatus where
  phase : String
  container_statuses : Option (List ContainerStatus)
  pod_ip : Option String
deriving Repr, DecidableEq

/-- `pod.spec`: the assigned node. -/
structure PodSpec where
  node_name : Option String
deriving Repr, DecidableEq

/-- A pod as returned by `v1.list_namespaced_pod`. -/
structure Pod where
  metadata : PodMeta
  status : PodStatus
  spec : PodSpec
deriving Repr, DecidableEq

/-- One entry of the `pod_info` list built by `get_pods` (`app.py` 204-213). -/
structure PodInfo where
  name : String
  version : String
  status : String
  ready : Bool
  ip : Option String
  node : Option String
  restarts : Nat
  hash : String
deriving Repr, DecidableEq

/-- `ready = False; if pod.status.container_statuses: ready = all(...)` —
note that an empty Python list is falsy, so an empty status list leaves
`ready = False`. -/
def readyOf (css : Option (List ContainerStatus)) : Bool :=
  match css with
  | some l => if l.isEmpty then false else l.all (fun cs => cs.ready)
  | none => false

/-- `sum(cs.restart_count for cs in ...) if pod.status.container_statuses else 0`. -/
def restartsOf (css : Option (List ContainerStatus)) : Nat :=
  match css with
  | some l => if l.isEmpty then 0 else (l.map (fun cs => cs.restart_count)).sum
  | none => 0

/-- The body of the `for pod in pods.items` loop (`app.py` 184-213): extract
the pod hash (defaulting to the literal string `"unknown"`), classify, and
build the response entry. -/
def mkPodInfo (active_hash preview_hash : Option String) (pod : Pod) : PodInfo :=
  let pod_hash := labelsGetD pod.metadata.labels "rollouts-pod-template-hash" "unknown"
  { name := pod.metadata.name
    version := classifyVersion active_hash preview_hash pod_hash
    status := pod.status.phase
    ready := readyOf pod.status.container_statuses
    ip := pod.status.pod_ip
    node := pod.spec.node_name
    restarts := restartsOf pod.status.container_statuses
    hash := pod_hash }

/-- The `summary` object of the `/api/pods` response. -/
structure PodsSummary where
  total : Nat
  active : Nat
  preview : Nat
  unknown : Nat
deriving Repr, DecidableEq

/-- The `/api/pods` JSON payload: `debug` is present only on the success
path, `error` only on the fallback path. -/
structure PodsResponse where
  pods : List PodInfo
  summary : PodsSummary
  debug : Option (Option String × Option String)
  error : Option String
deriving Repr, DecidableEq

/-- Handler for `GET /api/pods` (`app.py` 154-247).

Inputs model the two Kubernetes interactions: `podsResult` is the outcome of
`list_namespaced_pod` (an exception there is caught by the outer handler and
produces the zeroed fallback with status 200), and `svcResult` is the outcome
of the inner `try` reading the two services' selector hashes (an exception
there is absorbed, leaving both hashes `None`). -/
def get_pods (podsResult : Except String (List Pod))
    (svcResult : Except String (Option String × Option String)) :
    PodsResponse × Nat :=
  match podsResult with
  | Except.error e =>
      ({ pods := []
         summary := { total := 0, active := 0, preview := 0, unknown := 0 }
         debug := none
         error := some e }, 200)
  | Except.ok pods =>
      let hashes := match svcResult with
        | Except.ok ap => ap
        | Except.error _ => (none, none)
      let active_hash := hashes.1
      let preview_hash := hashes.2
      let pod_info := pods.map (mkPodInfo active_hash preview_hash)
      let active_count := (pod_info.filter (fun p => p.version == "active")).length
      let preview_count := (pod_info.filter (fun p => p.version == "preview")).length
      let unknown_count := (pod_info.filter (fun p => p.version == "unknown")).length
      ({ pods := pod_info
         summary := { total := pod_info.length
                      active := active_count
                      preview := preview_count
                      unknown := unknown_count }
         debug := some (active_hash, preview_hash)
         error := none }, 200)

/-- Prefix test on strings via their character lists (same result as
`String.isPrefixOf`, but reduces inside the kernel). -/
def strHasPrefixOf (p s : String) : Bool :=
  p.data.isPrefixOf s.data

/-- One pass of Python `str.replace` over a character list, with `fuel`
bounding the recursion (each step consumes at least one character, so
`fuel = l.length` is enough).  Occurrences are replaced left to right,
non-overlapping, and the replacement text is not rescanned — exactly
Python's semantics for a non-empty pattern. -/
def replaceChars (pat rep : List Char) : Nat → List Char → List Char
  | _, [] => []
  | 0, l => l
  | fuel + 1, c :: cs =>
    if pat.isPrefixOf (c :: cs) && !pat.isEmpty then
      rep ++ replaceChars pat rep fuel (cs.drop (pat.length - 1))
    else
      c :: replaceChars pat rep fuel cs

/-- Python `s.replace(pat, rep)` for a non-empty pattern: every occurrence
is replaced. -/
def pyReplace (s pat rep : String) : String :=
  String.mk (replaceChars pat.data rep.data s.data.length s.data)

/-- Accumulate a decimal digit string into a natural number; `none` on any
non-digit character. -/
def parseDigitsAux : List Char → Nat → Option Nat
  | [], acc => some acc
  | c :: cs, acc =>
    if c.isDigit then parseDigitsAux cs (acc * 10 + (c.toNat - 48))
    else none

/-- The Redis interface as used by `get_stats`: `get` returns the value of a
key (`None` when absent), `keysBackend` is the result of
`keys('backend_views:*')`.  Either call may raise (`Except.error`). -/
structure Store where
  get : String → Except String (Option String)
  keysBackend : Except String (List String)

/-- Python dict assignment `d[k] = v` on an association list: overwrite in
place when the key is present, otherwise append (insertion order). -/
def dictInsert (d : List (String × Option String)) (k : String) (v : Option String) :
    List (String × Option String) :=
  if d.any (fun kv => kv.1 == k) then
    d.map (fun kv => if kv.1 == k then (k, v) else kv)
  else d ++ [(k, v)]

/-- The `for key in backend_keys` loop of `get_stats` (`app.py` 137-140):
strip the prefix with Python `str.replace` (which removes every occurrence,
not only a leading one) and store the raw `get` result. -/
def buildBackendViews (store : Store) (keys : List String) :
    Except String (List (String × Option String)) :=
  keys.foldlM
    (fun acc key =>
      match store.get key with
      | Except.error e => Except.error e
      | Except.ok v =>
          Except.ok (dictInsert acc (pyReplace key "backend_views:" "") v))
    []

/-- Python `int(s)` on a decimal string (optional sign, then at least one
digit), raising on a non-numeric value. -/
def pythonInt (s : String) : Except String Int :=
  let fail : Except String Int :=
    Except.error ("invalid literal for int() with base 10: " ++ s)
  match s.data with
  | [] => fail
  | '-' :: rest =>
    match rest, parseDigitsAux rest 0 with
    | _ :: _, some n => Except.ok (-(n : Int))
    | _, _ => fail
  | '+' :: rest =>
    match rest, parseDigitsAux rest 0 with
    | _ :: _, some n => Except.ok (n : Int)
    | _, _ => fail
  | l =>
    match parseDigitsAux l 0 with
    | some n => Except.ok (n : Int)
    | none => fail

/-- Python `s or '0'` where `s : Option String`: `None` and `""` are falsy. -/
def orZero (s : Option String) : String :=
  match s with
  | some v => if v == "" then "0" else v
  | none => "0"

/-- The `/api/stats` JSON payload.  On the success path `last_updated` is
set and `error` is absent; on both failure paths the counts are zeroed and
`error` is set. -/
structure StatsPayload where
  total_views : Int
  backend_views : List (String × Option String)
  last_updated : Option String
  error : Option String
deriving Repr, DecidableEq

/-- The body of the `try` block of `get_stats` (`app.py` 132-146): read the
total, enumerate the per-instance counters, and assemble the payload.  Any
raised error propagates to the caller. -/
def aggregate (store : Store) (now : String) : Except String StatsPayload :=
  match store.get "total_views" with
  | Except.error e => Except.error e
  | Except.ok tv =>
    let total_views := orZero tv
    match store.keysBackend with
    | Except.error e => Except.error e
    | Except.ok backend_keys =>
      match buildBackendViews store backend_keys with
      | Except.error e => Except.error e
      | Except.ok backend_views =>
        match pythonInt total_views with
        | Except.error e => Except.error e
        | Except.ok n =>
            Except.ok { total_views := n
                        backend_views := backend_views
                        last_updated := some now
                        error := none }

/-- Handler for `GET /api/stats` (`app.py` 122-152): when the connectivity
flag recorded at startup is false, return the zeroed payload with status 200
without touching the store; otherwise run the aggregation, converting a
raised error into a zeroed 500 response. -/
def get_stats (redis_connected : Bool) (store : Store) (now : String) :
    StatsPayload × Nat :=
  if !redis_connected then
    ({ total_views := 0
       backend_views := []
       last_updated := none
       error := some "Redis not connected" }, 200)
  else
    match aggregate store now with
    | Except.ok payload => (payload, 200)
    | Except.error e =>
        ({ total_views := 0
           backend_views := []
           last_updated := none
           error := some e }, 500)

/-- The keys of `contents` that Redis `KEYS 'backend_views:*'` matches: the
glob pattern is a literal prefix followed by `*`, i.e. a prefix match. -/
def enumKeys (contents : List (String × String)) : List String :=
  (contents.map (fun kv => kv.1)).filter (fun k => strHasPrefixOf "backend_views:" k)

/-- A live Redis instance holding `contents`, with no failures: `GET` is an
association-list lookup and `KEYS 'backend_views:*'` is a prefix match. -/
def storeOfContents (contents : List (String × String)) : Store where
  get k := Except.ok (labelsLookup contents k)
  keysBackend := Except.ok (enumKeys contents)

/-- Stated from the spec's words, for comparison with the code: the instance
key is the original counter key with the LEADING prefix `backend_views:`
removed. -/
def stripLeadingSpec (k : String) : String :=
  String.mk (k.data.drop "backend_views:".data.length)

/-- Modelled from the spec: the scheme-A (static color) classifier.  It does
not appear in `src/backend/app.py`, which implements only the hash-based
scheme; spec section 4.3 defines it as "pod role = value of the pod's
`version` label, matched against the literal strings `blue`/`green`; anything
else is `unknown`.  No service lookup required."  The input is the pod's
`version` label value (`None` when the label is absent); no service data is
consumed. -/
def classifyColorA (versionLabel : Option String) : String :=
  match versionLabel with
  | some "blue" => "blue"
  | some "green" => "green"
  | _ => "unknown"

/-! Helper lemmas shared by several claim theorems. -/

/-- The scheme-B classifier only ever produces one of the three role
strings. -/
lemma classifyVersion_cases (a p : Option String) (h : String) :
    classifyVersion a p h = "active" ∨ classifyVersion a p h = "preview" ∨
      classifyVersion a p h = "unknown" := by
  unfold classifyVersion
  split
  · exact Or.inl rfl
  split
  · exact Or.inr (Or.inl rfl)
  split
  · exact Or.inr (Or.inr rfl)
  · exact Or.inr (Or.inr rfl)

/-- Counting the three role buckets of a pod-info list partitions it. -/
lemma filter_version_partition (l : List PodInfo)
    (h : ∀ x ∈ l, x.version = "active" ∨ x.version = "preview" ∨
      x.version = "unknown") :
    (l.filter (fun p => p.version == "active")).length
      + (l.filter (fun p => p.version == "preview")).length
      + (l.filter (fun p => p.version == "unknown")).length = l.length := by
  induction l with
  | nil => simp
  | cons x xs ih =>
    have hx := h x (List.mem_cons_self x xs)
    have hxs : ∀ y ∈ xs, y.version = "active" ∨ y.version = "preview" ∨
        y.version = "unknown" := fun y hy => h y (List.mem_cons_of_mem x hy)
    have hsum := ih hxs
    rcases hx with hx | hx | hx <;>
      simp [List.filter_cons, hx] <;> omega

/-! Claim theorems. -/

/-- Claim C1, as stated, is false: with `activeHash = some ""` (non-null)
and a pod whose `rollouts-pod-template-hash` label value is `""` (equal to
`activeHash`), the code classifies the pod `unknown`, because Python
truthiness makes `if active_hash and ...` skip an empty-string hash. -/
theorem active_claim_empty_hash_cex :
    labelsLookup [("rollouts-pod-template-hash", "")]
        "rollouts-pod-template-hash" = some "" ∧
    (mkPodInfo (some "") none
        { metadata := { name := "p1", labels := [("rollouts-pod-template-hash", "")] }
          status := { phase := "Running", container_statuses := none, pod_ip := none }
          spec := { node_name := none } }).version = "unknown" ∧
    (mkPodInfo (some "") none
        { metadata := { name := "p1", labels := [("rollouts-pod-template-hash", "")] }
          status := { phase := "Running", container_statuses := none, pod_ip := none }
          spec := { node_name := none } }).version ≠ "active" := by
  decide

/-- Claim C1 (amended): for every pod, if `activeHash` is non-null and
NON-EMPTY and the pod's `rollouts-pod-template-hash` label value equals it,
the pod's role is `active` — for every `previewHash`, including one equal to
`activeHash`, since the active condition is evaluated first. -/
theorem active_of_nonempty_hash_match (a : String) (p : Option String) (pod : Pod)
    (ha : a ≠ "")
    (hl : labelsLookup pod.metadata.labels "rollouts-pod-template-hash" = some a) :
    (mkPodInfo (some a) p pod).version = "active" := by
  simp [mkPodInfo, labelsGetD, hl, classifyVersion, truthyStr, ha]

/-- Witness for C1 (amended) at a concrete pod, with the tie-break case
`previewHash = activeHash`. -/
theorem active_of_nonempty_hash_match_witness :
    ("h1" : String) ≠ "" ∧
    labelsLookup [("rollouts-pod-template-hash", "h1")]
        "rollouts-pod-template-hash" = some "h1" ∧
    (mkPodInfo (some "h1") (some "h1")
        { metadata := { name := "p1", labels := [("rollouts-pod-template-hash", "h1")] }
          status := { phase := "Running", container_statuses := none, pod_ip := none }
          spec := { node_name := none } }).version = "active" :=
  ⟨by decide, by decide,
    active_of_nonempty_hash_match "h1" (some "h1")
      { metadata := { name := "p1", labels := [("rollouts-pod-template-hash", "h1")] }
        status := { phase := "Running", container_statuses := none, pod_ip := none }
        spec := { node_name := none } }
      (by decide) (by decide)⟩

/-- Claim C2: when both service hashes are null, every pod is classified
`unknown`, whatever its own hash label value. -/
theorem unknown_of_both_hashes_null (pod : Pod) :
    (mkPodInfo none none pod).version = "unknown" := rfl

/-- Claim C3: for every pod-list outcome and every service-hash outcome, the
summary of `/api/pods` satisfies `active + preview + unknown = total`. -/
theorem summary_counts_partition (podsResult : Except String (List Pod))
    (svcResult : Except String (Option String × Option String)) :
    (get_pods podsResult svcResult).1.summary.active
      + (get_pods podsResult svcResult).1.summary.preview
      + (get_pods podsResult svcResult).1.summary.unknown
      = (get_pods podsResult svcResult).1.summary.total := by
  cases podsResult with
  | error e => rfl
  | ok pods =>
    simp only [get_pods]
    apply filter_version_partition
    intro x hx
    rcases List.mem_map.mp hx with ⟨pod, _, rfl⟩
    exact classifyVersion_cases _ _ _

/-- Claim C4: the scheme-B role is a deterministic pure function of the
triple (activeHash, previewHash, podHash) — equal inputs give equal roles —
and its value is always one of the three role strings. -/
theorem classify_deterministic_and_total (a a' p p' : Option String) (h h' : String)
    (hea : a = a') (hep : p = p') (heh : h = h') :
    classifyVersion a p h = classifyVersion a' p' h' ∧
    (classifyVersion a p h = "active" ∨ classifyVersion a p h = "preview" ∨
      classifyVersion a p h = "unknown") := by
  subst hea; subst hep; subst heh
  exact ⟨rfl, classifyVersion_cases a p h⟩

/-- Witness for C4 at a concrete triple. -/
theorem classify_deterministic_and_total_witness :
    classifyVersion (some "h1") (some "h2") "h1"
        = classifyVersion (some "h1") (some "h2") "h1" ∧
    (classifyVersion (some "h1") (some "h2") "h1" = "active" ∨
      classifyVersion (some "h1") (some "h2") "h1" = "preview" ∨
      classifyVersion (some "h1") (some "h2") "h1" = "unknown") :=
  classify_deterministic_and_total (some "h1") (some "h1") (some "h2") (some "h2")
    "h1" "h1" rfl rfl rfl

/-- Claim C5: when listing pods fails with any error, `/api/pods` answers
with status 200, an empty pod list, an all-zero summary, and the error
message in the payload — never a transport-level failure. -/
theorem pods_fallback_on_cluster_error (e : String)
    (svcResult : Except String (Option String × Option String)) :
    get_pods (Except.error e) svcResult =
      ({ pods := []
         summary := { total := 0, active := 0, preview := 0, unknown := 0 }
         debug := none
         error := some e }, 200) := rfl

/-- Claim C6: with the connectivity flag false, `/api/stats` returns zero
total views, an empty per-instance map, the explanatory error field and
status 200, and the result is independent of the store and the clock — no
store call is consulted. -/
theorem stats_disconnected_zeroed (store store' : Store) (now now' : String) :
    get_stats false store now =
      ({ total_views := 0
         backend_views := []
         last_updated := none
         error := some "Redis not connected" }, 200) ∧
    get_stats false store now = get_stats false store' now' :=
  ⟨rfl, rfl⟩

/-- If some counter key in the list has a failing read, the aggregation loop
propagates the raised error, whatever the accumulator. -/
lemma buildBackendViews_error (store : Store) (keys : List String) :
    ∀ acc : List (String × Option String),
      (∃ k ∈ keys, ∃ e, store.get k = Except.error e) →
      ∃ msg,
        List.foldlM
          (fun acc key =>
            match store.get key with
            | Except.error e => Except.error e
            | Except.ok v =>
                Except.ok (dictInsert acc (pyReplace key "backend_views:" "") v))
          acc keys
        = Except.error msg := by
  induction keys with
  | nil =>
    intro acc h
    rcases h with ⟨k, hk, -⟩
    exact absurd hk (List.not_mem_nil k)
  | cons key ks ih =>
    intro acc h
    rcases hg : store.get key with e' | v
    · refine ⟨e', ?_⟩
      simp only [List.foldlM, hg]
      rfl
    · rcases h with ⟨k, hk, e, he⟩
      rcases List.mem_cons.mp hk with rfl | hk'
      · simp [hg] at he
      · rcases ih (dictInsert acc (pyReplace key "backend_views:" "") v)
            ⟨k, hk', e, he⟩ with ⟨msg, hm⟩
        refine ⟨msg, ?_⟩
        simp only [List.foldlM, hg]
        exact hm

/-- Claim C7: with the connectivity flag true, if any store read of the
aggregation raises — the `total_views` get, the key enumeration, or the
per-key counter get inside the loop — `/api/stats` answers with status 500
and a payload with zero total views, an empty per-instance map and an error
message. -/
theorem stats_500_on_read_failure (store : Store) (now e : String)
    (h : store.get "total_views" = Except.error e ∨
      store.keysBackend = Except.error e ∨
      ∃ keys, store.keysBackend = Except.ok keys ∧
        ∃ k ∈ keys, store.get k = Except.error e) :
    (get_stats true store now).2 = 500 ∧
    ∃ msg, (get_stats true store now).1 =
      { total_views := 0
        backend_views := []
        last_updated := none
        error := some msg } := by
  have hagg : ∃ msg, aggregate store now = Except.error msg := by
    rcases h with h | h | ⟨keys, hks, k, hkmem, hkerr⟩
    · exact ⟨e, by unfold aggregate; rw [h]⟩
    · rcases hg : store.get "total_views" with e' | tv
      · exact ⟨e', by unfold aggregate; rw [hg]⟩
      · exact ⟨e, by unfold aggregate; rw [hg]; simp only []; rw [h]⟩
    · rcases hg : store.get "total_views" with e' | tv
      · exact ⟨e', by unfold aggregate; rw [hg]⟩
      · rcases buildBackendViews_error store keys [] ⟨k, hkmem, e, hkerr⟩ with ⟨msg, hb⟩
        have hb' : buildBackendViews store keys = Except.error msg := hb
        exact ⟨msg, by unfold aggregate; rw [hg]; simp only []; rw [hks]; simp only []; rw [hb']⟩
  rcases hagg with ⟨msg, hagg⟩
  refine ⟨?_, msg, ?_⟩ <;> simp [get_stats, hagg]

/-- Witness for C7: a store where the total and the key enumeration succeed
but the per-key counter read inside the loop raises yields the zeroed 500
response. -/
theorem stats_500_on_read_failure_witness :
    ((Store.mk
        (fun k => if k == "total_views" then Except.ok (some "1")
          else Except.error "boom")
        (Except.ok ["backend_views:a"])).get "total_views" = Except.error "boom" ∨
      (Store.mk
        (fun k => if k == "total_views" then Except.ok (some "1")
          else Except.error "boom")
        (Except.ok ["backend_views:a"])).keysBackend = Except.error "boom" ∨
      ∃ keys,
        (Store.mk
          (fun k => if k == "total_views" then Except.ok (some "1")
            else Except.error "boom")
          (Except.ok ["backend_views:a"])).keysBackend = Except.ok keys ∧
        ∃ k ∈ keys,
          (Store.mk
            (fun k => if k == "total_views" then Except.ok (some "1")
              else Except.error "boom")
            (Except.ok ["backend_views:a"])).get k = Except.error "boom") ∧
    (get_stats true
        (Store.mk
          (fun k => if k == "total_views" then Except.ok (some "1")
            else Except.error "boom")
          (Except.ok ["backend_views:a"])) "t").2 = 500 ∧
    ∃ msg,
      (get_stats true
          (Store.mk
            (fun k => if k == "total_views" then Except.ok (some "1")
              else Except.error "boom")
            (Except.ok ["backend_views:a"])) "t").1
        = { total_views := 0
            backend_views := []
            last_updated := none
            error := some msg } :=
  ⟨Or.inr (Or.inr ⟨["backend_views:a"], rfl, "backend_views:a", by decide, by decide⟩),
    stats_500_on_read_failure
      (Store.mk
        (fun k => if k == "total_views" then Except.ok (some "1")
          else Except.error "boom")
        (Except.ok ["backend_views:a"]))
      "t" "boom"
      (Or.inr (Or.inr ⟨["backend_views:a"], rfl, "backend_views:a", by decide, by decide⟩))⟩

/-- Claim C8 (scheme A, modelled from the spec: the classifier is not in
`src/backend/app.py`): the role equals the pod's `version` label matched
against the literals `blue`/`green`, and any other label value — or an
absent label — yields `unknown`; no service data enters the function. -/
theorem scheme_a_color_classifier :
    classifyColorA (some "blue") = "blue" ∧
    classifyColorA (some "green") = "green" ∧
    ∀ v : Option String, v ≠ some "blue" → v ≠ some "green" →
      classifyColorA v = "unknown" := by
  refine ⟨rfl, rfl, ?_⟩
  intro v hb hg
  unfold classifyColorA
  split <;> simp_all

/-- Witness for C8 at concrete label values. -/
theorem scheme_a_color_classifier_witness :
    classifyColorA (some "blue") = "blue" ∧
    classifyColorA (some "red") = "unknown" :=
  ⟨scheme_a_color_classifier.1,
    scheme_a_color_classifier.2.2 (some "red") (by decide) (by decide)⟩

/-- Claim C10: a pod without the `rollouts-pod-template-hash` label gets the
literal string `unknown` as its hash (also reported in the `hash` field);
if a service selector's hash is itself the string `unknown`, such a pod is
classified `active` (or `active`/`preview` when either selector carries it)
rather than `unknown`. -/
theorem missing_label_unknown_hash (a p : Option String) (pod : Pod)
    (hl : labelsLookup pod.metadata.labels "rollouts-pod-template-hash" = none) :
    (mkPodInfo a p pod).hash = "unknown" ∧
    (a = some "unknown" → (mkPodInfo a p pod).version = "active") ∧
    (a = some "unknown" ∨ p = some "unknown" →
      (mkPodInfo a p pod).version = "active" ∨
        (mkPodInfo a p pod).version = "preview") := by
  refine ⟨by simp [mkPodInfo, labelsGetD, hl], ?_, ?_⟩
  · rintro rfl
    simp [mkPodInfo, labelsGetD, hl, classifyVersion, truthyStr]
  · rintro (rfl | rfl)
    · exact Or.inl (by simp [mkPodInfo, labelsGetD, hl, classifyVersion, truthyStr])
    · simp only [mkPodInfo, labelsGetD, hl, Option.getD_none]
      unfold classifyVersion
      split
      · exact Or.inl rfl
      · split
        · exact Or.inr rfl
        · simp_all [truthyStr]

/-- Witness for C10: a label-less pod with `activeHash = some "unknown"` is
classified active and reports hash `unknown`. -/
theorem missing_label_unknown_hash_witness :
    labelsLookup ([] : List (String × String)) "rollouts-pod-template-hash" = none ∧
    ((mkPodInfo (some "unknown") none
        { metadata := { name := "p1", labels := [] }
          status := { phase := "Running", container_statuses := none, pod_ip := none }
          spec := { node_name := none } }).hash = "unknown" ∧
      (some "unknown" = some "unknown" →
        (mkPodInfo (some "unknown") none
          { metadata := { name := "p1", labels := [] }
            status := { phase := "Running", container_statuses := none, pod_ip := none }
            spec := { node_name := none } }).version = "active") ∧
      (some "unknown" = some "unknown" ∨ (none : Option String) = some "unknown" →
        (mkPodInfo (some "unknown") none
          { metadata := { name := "p1", labels := [] }
            status := { phase := "Running", container_statuses := none, pod_ip := none }
            spec := { node_name := none } }).version = "active" ∨
          (mkPodInfo (some "unknown") none
            { metadata := { name := "p1", labels := [] }
              status := { phase := "Running", container_statuses := none, pod_ip := none }
              spec := { node_name := none } }).version = "preview")) :=
  ⟨rfl,
    missing_label_unknown_hash (some "unknown") none
      { metadata := { name := "p1", labels := [] }
        status := { phase := "Running", container_statuses := none, pod_ip := none }
        spec := { node_name := none } }
      rfl⟩

/-- Python dict assignment with a key absent from the dict appends the
pair. -/
lemma dictInsert_of_fresh (d : List (String × Option String)) (k : String)
    (v : Option String) (h : ∀ kv ∈ d, kv.1 ≠ k) :
    dictInsert d k v = d ++ [(k, v)] := by
  have hc : ¬ (d.any (fun kv => kv.1 == k) = true) := by
    intro hc
    rcases List.any_eq_true.mp hc with ⟨kv, hmem, hbeq⟩
    exact h kv hmem (by simpa using hbeq)
  simp [dictInsert, hc]

/-- The aggregation loop over a live store, with an arbitrary starting
accumulator: when the stripped names (of the keys still to process, plus the
accumulator's own names) are pairwise distinct, each step appends, so the
loop is the map of stripping and reading. -/
lemma buildBackendViews_aux (contents : List (String × String)) (keys : List String) :
    ∀ acc : List (String × Option String),
      (acc.map Prod.fst
        ++ keys.map (fun k => pyReplace k "backend_views:" "")).Nodup →
      List.foldlM
        (fun acc key =>
          (Except.ok (dictInsert acc (pyReplace key "backend_views:" "")
              (labelsLookup contents key)) :
            Except String (List (String × Option String))))
        acc keys
      = Except.ok (acc ++ keys.map
          (fun k => (pyReplace k "backend_views:" "", labelsLookup contents k))) := by
  induction keys with
  | nil =>
    intro acc _
    simp only [List.foldlM, List.map_nil, List.append_nil]
    rfl
  | cons key ks ih =>
    intro acc hnd
    have hd : (acc.map Prod.fst).Disjoint
        ((key :: ks).map (fun k => pyReplace k "backend_views:" "")) :=
      List.disjoint_of_nodup_append hnd
    have hfresh : ∀ kv ∈ acc, kv.1 ≠ pyReplace key "backend_views:" "" := by
      intro kv hmem heq
      exact hd (List.mem_map_of_mem Prod.fst hmem)
        (heq ▸ List.mem_map_of_mem _ (List.mem_cons_self key ks))
    have hstep : dictInsert acc (pyReplace key "backend_views:" "")
        (labelsLookup contents key)
        = acc ++ [(pyReplace key "backend_views:" "", labelsLookup contents key)] :=
      dictInsert_of_fresh acc _ _ hfresh
    have hnd' : ((acc ++ [(pyReplace key "backend_views:" "",
          labelsLookup contents key)]).map Prod.fst
        ++ ks.map (fun k => pyReplace k "backend_views:" "")).Nodup := by
      simpa [List.append_assoc] using hnd
    have htail := ih _ hnd'
    show List.foldlM
        (fun acc key =>
          (Except.ok (dictInsert acc (pyReplace key "backend_views:" "")
              (labelsLookup contents key)) :
            Except String (List (String × Option String))))
        (dictInsert acc (pyReplace key "backend_views:" "") (labelsLookup contents key))
        ks = _
    rw [hstep, htail]
    simp [List.append_assoc]

/-- Claim C9, as stated, is false: the counter key
`backend_views:backend_views:h` is enumerated (it starts with the prefix),
but Python `str.replace` removes EVERY occurrence of `backend_views:`, so
the instance key becomes `h` instead of the leading-prefix-stripped
`backend_views:h`. -/
theorem strip_claim_replace_all_cex :
    enumKeys [("backend_views:backend_views:h", "3")]
      = ["backend_views:backend_views:h"] ∧
    get_stats true (storeOfContents [("backend_views:backend_views:h", "3")]) "t"
      = ({ total_views := 0
           backend_views := [("h", some "3")]
           last_updated := some "t"
           error := none }, 200) ∧
    stripLeadingSpec "backend_views:backend_views:h" = "backend_views:h" ∧
    ("h" : String) ≠ "backend_views:h" := by
  decide

/-- Claim C9 (amended): only counter keys starting with `backend_views:` are
enumerated, and the instance key of each entry is the counter key with EVERY
occurrence of `backend_views:` removed (Python replace-all, equal to
leading-prefix-stripping whenever the remainder contains no further
occurrence); with pairwise-distinct stripped names the produced mapping is
exactly the enumerated keys paired with their stored values. -/
theorem strip_replace_all (contents : List (String × String))
    (hnd : ((enumKeys contents).map
      (fun k => pyReplace k "backend_views:" "")).Nodup) :
    (∀ k ∈ enumKeys contents, strHasPrefixOf "backend_views:" k = true) ∧
    buildBackendViews (storeOfContents contents) (enumKeys contents)
      = Except.ok ((enumKeys contents).map
          (fun k => (pyReplace k "backend_views:" "", labelsLookup contents k))) := by
  constructor
  · intro k hk
    exact (List.mem_filter.mp hk).2
  · exact buildBackendViews_aux contents (enumKeys contents) [] (by simpa using hnd)

/-- Witness for C9 (amended) on a two-key store. -/
theorem strip_replace_all_witness :
    ((enumKeys [("backend_views:pod1", "5"), ("x", "9")]).map
        (fun k => pyReplace k "backend_views:" "")).Nodup ∧
    ((∀ k ∈ enumKeys [("backend_views:pod1", "5"), ("x", "9")],
        strHasPrefixOf "backend_views:" k = true) ∧
      buildBackendViews (storeOfContents [("backend_views:pod1", "5"), ("x", "9")])
          (enumKeys [("backend_views:pod1", "5"), ("x", "9")])
        = Except.ok ((enumKeys [("backend_views:pod1", "5"), ("x", "9")]).map
            (fun k => (pyReplace k "backend_views:" "",
              labelsLookup [("backend_views:pod1", "5"), ("x", "9")] k)))) :=
  ⟨by decide, strip_replace_all [("backend_views:pod1", "5"), ("x", "9")] (by decide)⟩

end BlueGreen
